import Mathlib

/-!
Verification of the mangOH Battery Service (`batteryComponentRed/battery.c`).

The C module is a single-threaded state machine driven by a sampling timer and
by capacity-configuration pushes.  This file gives a shallow embedding of its
data model and operations:

* process-wide globals (`State`, `Capacity`, `ChargeCounter`, `OldChargeCounter`,
  `ChargingStatus`, the `static` locals of the reporting functions, the contents
  of the `batteryInfo/percent` config-tree key, and the callback registries)
  become fields of the `Sys` structure;
* each per-cycle hardware read becomes an `Option`-valued input in `TickInputs`
  (`none` = the read failed);
* `LE_FATAL` (which terminates the process) and C undefined behaviour (the
  division by a zero `Capacity` in `ComputePercentage`) are modelled by the
  whole operation returning `none`: no successor state exists;
* machine arithmetic follows the 32-bit embedded target (ILP32: `unsigned long`
  is 32 bits wide), so the intermediate product `1000UL * mAh` is reduced
  `% 2^32`, `int32_t → uint16_t` conversions are reduced `% 2^16`, and signed
  division (`/` on C ints) is `Int.tdiv`;
* externally visible writes (config-tree save/delete, gauge corrections,
  invoked callbacks, the Data Hub push) are recorded in a `List Effect`.

Floating point is kept out of the model: the `CurrentFlow` estimate (a
`double` that only flows into the pushed JSON string) is not modelled, and the
`double capacity` argument of the Data Hub `SetCapacity` handler is modelled by
an integer (non-integral doubles truncate to the same integers; out-of-range
`double → int32_t` conversion is undefined behaviour, modelled as `none`).
-/

/-- The states of the battery service state machine (the C `State` enum). -/
inductive BatteryState
  | unconfigured
  | stabilizing
  | detectingPresence
  | disconnected
  | calibrating
  | nominal
deriving DecidableEq, Repr

/-- `ma_battery_ChargingStatus_t`. -/
inductive ChargingStatus
  | discharging
  | charging
  | full
  | notCharging
  | unknown
  | error
deriving DecidableEq, Repr

/-- `ma_battery_HealthStatus_t`. -/
inductive HealthStatus
  | overvoltage
  | good
  | cold
  | hot
  | disconnected
  | unknown
  | error
deriving DecidableEq, Repr

/-- The events consumed by the state machine (the C `Event_t` enum). -/
inductive Event
  | timerExpired
  | capacityChanged
deriving DecidableEq, Repr

/-- `LevelAlarmType_t`: the kind of the last battery-level alarm fired. -/
inductive LevelAlarmType
  | levelHigh
  | levelLow
  | levelNone
deriving DecidableEq, Repr

/-- `le_result_t` codes relevant to the embedded functions. -/
inductive LeResult
  | ok
  | notFound
  | ioError
deriving DecidableEq, Repr

/-- `LevelAlarmReg_t`: one battery-level alarm registration (callback pointer and
session omitted; they carry no state relevant to the alarm logic). -/
structure LevelAlarmReg where
  percentageHigh : Nat
  percentageLow : Nat
  lastAlarmType : LevelAlarmType
deriving DecidableEq, Repr

/-- Externally visible side effects of one operation. -/
inductive Effect
  | savePercent (percentage : Nat)   -- `SavePercentage`: write `batteryInfo/percent`
  | deletePercent                    -- `DeletePercentage`: delete `batteryInfo/percent`
  | gaugeWrite (uAh : Int)           -- `UpdateChargeLevel`: write `charge_now`
  | levelAlarm (isHigh : Bool) (percentage : Nat)  -- one level-alarm callback invocation
  | chargingEvent (status : ChargingStatus)        -- one charging-status callback invocation
  | healthEvent (status : HealthStatus)            -- one health-status callback invocation
  | pushReading (health : HealthStatus) (percentage mAh : Nat)
      (charging : Bool) (uV cdegC : Int)           -- `dhubIO_PushJson` of the JSON reading
deriving DecidableEq, Repr

/-- The process-wide mutable state of the battery service. -/
structure Sys where
  state : BatteryState               -- `State`
  capacity : Int                     -- `Capacity` (int32_t, -1 = not configured)
  chargeCounter : Int                -- `ChargeCounter`
  oldChargeCounter : Int             -- `OldChargeCounter`
  chargingStatus : ChargingStatus    -- `ChargingStatus`
  oldPercentage : Int                -- `static int oldPercentage` in `ReportAll`
  lastChargingStatus : ChargingStatus -- `static ... oldStatus` in `ReportChargingStatusChange`
  lastHealthStatus : HealthStatus    -- `static ... oldStatus` in `ReportHealthStatusChange`
  persistedPercent : Option Nat      -- the `batteryInfo/percent` config-tree key
  regs : List LevelAlarmReg          -- `LevelAlarmRefMap`
  chargingRegs : Nat                 -- number of entries in `ChargingStatusRegRefMap`
  healthRegs : Nat                   -- number of entries in `HealthStatusRegRefMap`
deriving DecidableEq, Repr

/-- The hardware values read during one sampling cycle; `none` = the sysfs read
failed (`util_Read...FromFile` returned an error). -/
structure TickInputs where
  counter : Option Int       -- `charge_counter` (µAh)
  statusStr : Option String  -- the charging status string
  chargeNowRead : Option Int -- `charge_now` (µAh)
  healthStr : Option String  -- the health string
  voltageRead : Option Int   -- `voltage_now` (µV)
  tempRead : Option Int      -- `temp` (centi-degrees C)
deriving DecidableEq, Repr

/-- `ComputePercentage`: percentage of battery charge from the mAh level and the
global `Capacity`.  `1000UL * mAh / Capacity` is 32-bit unsigned arithmetic on
the target, so the product wraps `% 2^32` and `Capacity` is converted to
`uint32_t`.  A zero divisor (`Capacity == 0`) is a C division by zero
(undefined behaviour), modelled as `none`; the C source has no guard for it. -/
def ComputePercentage (capacity : Int) (mAh : Nat) : Option Nat :=
  let cap32 : Nat := (capacity % (2 : Int) ^ 32).toNat
  if cap32 = 0 then none
  else
    let percentTimesTen : Nat := 1000 * mAh % 2 ^ 32 / cap32
    let percentage : Nat := percentTimesTen / 10
    let percentage : Nat := if percentTimesTen % 10 ≥ 5 then percentage + 1 else percentage
    some (if percentage > 100 then 100 else percentage)

/-- Modelled from the spec's words, for comparison with `ComputePercentage`:
"returns `round(1000*mAh/capacity / 10)` with carry on remainder ≥5, clamped to
[0,100]" (exact arithmetic, no machine-width reduction). -/
def SpecPercentage (mAh capacity : Nat) : Nat :=
  let t := 1000 * mAh / capacity
  min (t / 10 + (if t % 10 ≥ 5 then 1 else 0)) 100

/-- One registration's check in `ReportBatteryLevelAlarms`: returns the updated
registration and `some isHigh` when the handler was invoked. -/
def LevelAlarmCheck (percentage : Nat) (reg : LevelAlarmReg) :
    LevelAlarmReg × Option Bool :=
  if percentage > reg.percentageHigh ∧ reg.lastAlarmType ≠ LevelAlarmType.levelHigh then
    ({reg with lastAlarmType := LevelAlarmType.levelHigh}, some true)
  else if percentage < reg.percentageLow ∧ reg.lastAlarmType ≠ LevelAlarmType.levelLow then
    ({reg with lastAlarmType := LevelAlarmType.levelLow}, some false)
  else (reg, none)

/-- `LevelAlarmCheck` folded over a sample sequence for a single registration:
the alarm fired (`some isHigh`) or not (`none`) at each index. -/
def LevelAlarmTrace (reg : LevelAlarmReg) : List Nat → List (Option Bool)
  | [] => []
  | p :: rest =>
    let r := LevelAlarmCheck p reg
    r.2 :: LevelAlarmTrace r.1 rest

/-- `ReportBatteryLevelAlarms`: walk the registration list, firing at most one
alarm per registration. -/
def ReportBatteryLevelAlarms (percentage : Nat) :
    List LevelAlarmReg → List LevelAlarmReg × List Effect
  | [] => ([], [])
  | reg :: rest =>
    let r := LevelAlarmCheck percentage reg
    let rs := ReportBatteryLevelAlarms percentage rest
    (r.1 :: rs.1,
     (match r.2 with
      | some isHigh => [Effect.levelAlarm isHigh percentage]
      | none => []) ++ rs.2)

/-- The compare-and-update core shared by `ReportChargingStatusChange` and
`ReportHealthStatusChange`: callbacks fire iff the new value differs from the
last broadcast one, which is then updated. -/
def StatusChangeStep (oldStatus newStatus : ChargingStatus) : ChargingStatus × Bool :=
  if newStatus ≠ oldStatus then (newStatus, true) else (oldStatus, false)

/-- `StatusChangeStep` folded over a sample sequence: whether the callbacks
fired at each index. -/
def StatusChangeTrace (oldStatus : ChargingStatus) : List ChargingStatus → List Bool
  | [] => []
  | v :: rest =>
    let r := StatusChangeStep oldStatus v
    r.2 :: StatusChangeTrace r.1 rest

/-- `ma_battery_GetChargingStatus`: the raw status is meaningless unless a
battery is known to be present. -/
def ma_battery_GetChargingStatus (s : Sys) : ChargingStatus :=
  match s.state with
  | .unconfigured | .stabilizing | .detectingPresence | .disconnected =>
      ChargingStatus.unknown
  | .calibrating | .nominal => s.chargingStatus

/-- `IsCharging`: true if charging or full (the monitor shows FULL only on
external power). -/
def IsCharging (s : Sys) : Bool :=
  let status := ma_battery_GetChargingStatus s
  status = ChargingStatus.charging ∨ status = ChargingStatus.full

/-- `ma_battery_GetHealthStatus`: reads the charger's health string, masked by
the state machine (a `Good` reading is only trusted once a battery is known to
be present). -/
def ma_battery_GetHealthStatus (s : Sys) (healthStr : Option String) : HealthStatus :=
  if s.state = BatteryState.disconnected then HealthStatus.disconnected
  else
    match healthStr with
    | none => HealthStatus.error
    | some v =>
      if v = "Good" then
        if s.state ≠ BatteryState.calibrating ∧ s.state ≠ BatteryState.nominal then
          HealthStatus.unknown
        else HealthStatus.good
      else if v = "Overvoltage" then HealthStatus.overvoltage
      else if v = "Cold" then HealthStatus.cold
      else if v = "Overheat" then HealthStatus.hot
      else HealthStatus.unknown

/-- `ReadChargingStatus`: parse the status string; a failed read or an
unrecognized string yields `MA_BATTERY_CHARGING_ERROR`. -/
def ReadChargingStatus (statusStr : Option String) : ChargingStatus :=
  match statusStr with
  | none => ChargingStatus.error
  | some v =>
    if v = "Discharging" then ChargingStatus.discharging
    else if v = "Charging" then ChargingStatus.charging
    else if v = "Full" then ChargingStatus.full
    else if v = "Not charging" then ChargingStatus.notCharging
    else if v = "Unknown" then ChargingStatus.unknown
    else ChargingStatus.error

/-- `UpdateChargeLevel`: write the present charge (µAh) to the monitoring
driver; a non-positive value is rejected with a logged error and no write.
(The `mAh * 1000` µAh conversion can exceed `int32_t` for capacities above
2147483 mAh; no claim depends on the written value, so the wrap is not
modelled.) -/
def UpdateChargeLevel (mAh : Int) : List Effect :=
  if 0 < mAh then [Effect.gaugeWrite (mAh * 1000)] else []

/-- `StartStabilization`: enter `STABILIZING` (and restart the settle timer,
not modelled). -/
def StartStabilization (s : Sys) : Sys × List Effect :=
  ({s with state := BatteryState.stabilizing}, [])

/-- `StartCalibration`: if the charger already reports `Full`, anchor the gauge
at full capacity and go `NOMINAL`; otherwise guess half capacity and go
`CALIBRATING`. -/
def StartCalibration (s : Sys) : Sys × List Effect :=
  if s.chargingStatus = ChargingStatus.full then
    ({s with state := BatteryState.nominal}, UpdateChargeLevel s.capacity)
  else
    ({s with state := BatteryState.calibrating}, UpdateChargeLevel (Int.tdiv s.capacity 2))

/-- `UnconfiguredState`: event handler for `STATE_UNCONFIGURED`. -/
def UnconfiguredState : Event → Sys → Sys × List Effect
  | .timerExpired, s => (s, [])   -- LE_CRIT log; stop the timer (not modelled)
  | .capacityChanged, s => StartStabilization s

/-- `StabilizingState`: event handler for `STATE_STABILIZING`. -/
def StabilizingState : Event → Sys → Sys × List Effect
  | .timerExpired, s => ({s with state := BatteryState.detectingPresence}, [])
  | .capacityChanged, s => (s, [])  -- restart the settle timer only

/-- `DetectingPresenceState`: event handler for `STATE_DETECTING_PRESENCE`. -/
def DetectingPresenceState : Event → Sys → Sys × List Effect
  | .timerExpired, s =>
    if s.chargeCounter ≠ s.oldChargeCounter then StartCalibration s
    else if s.chargingStatus = ChargingStatus.charging then
      ({s with state := BatteryState.disconnected}, [])
    else (s, [])
  | .capacityChanged, s => StartStabilization s

/-- `DisconnectedState`: event handler for `STATE_DISCONNECTED`. -/
def DisconnectedState : Event → Sys → Sys × List Effect
  | .timerExpired, s =>
    if s.chargeCounter ≠ s.oldChargeCounter then StartCalibration s else (s, [])
  | .capacityChanged, s => StartStabilization s

/-- `CalibratingState`: event handler for `STATE_CALIBRATING`. -/
def CalibratingState : Event → Sys → Sys × List Effect
  | .timerExpired, s =>
    if s.chargingStatus = ChargingStatus.full then
      ({s with state := BatteryState.nominal}, UpdateChargeLevel s.capacity)
    else if s.chargeCounter = s.oldChargeCounter ∧
        s.chargingStatus = ChargingStatus.charging then
      ({s with state := BatteryState.disconnected, persistedPercent := none},
       [Effect.deletePercent])
    else (s, [])
  | .capacityChanged, s => StartStabilization s

/-- `NominalState`: event handler for `STATE_NOMINAL`. -/
def NominalState : Event → Sys → Sys × List Effect
  | .timerExpired, s =>
    if s.chargeCounter = s.oldChargeCounter ∧
        s.chargingStatus = ChargingStatus.charging then
      ({s with state := BatteryState.disconnected, persistedPercent := none},
       [Effect.deletePercent])
    else if s.chargingStatus = ChargingStatus.full then
      (s, UpdateChargeLevel s.capacity)
    else (s, [])
  | .capacityChanged, s => StartStabilization s

/-- The `switch (State)` dispatch at the top of `RunStateMachine`. -/
def HandleEvent (e : Event) (s : Sys) : Sys × List Effect :=
  match s.state with
  | .unconfigured => UnconfiguredState e s
  | .stabilizing => StabilizingState e s
  | .detectingPresence => DetectingPresenceState e s
  | .disconnected => DisconnectedState e s
  | .calibrating => CalibratingState e s
  | .nominal => NominalState e s

/-- `ma_battery_GetChargeRemaining`: read `charge_now` (µAh, `int32_t`), store
`uAh / 1000` into a `uint16_t` output.  C `/` on ints truncates toward zero and
the `int32_t → uint16_t` conversion reduces `% 2^16`. -/
def ma_battery_GetChargeRemaining (chargeNowRead : Option Int) : Option Nat :=
  match chargeNowRead with
  | none => none
  | some uAh => some ((Int.tdiv uAh 1000 % (2 : Int) ^ 16).toNat)

/-- The `STATE_NOMINAL` persistence block of `ReportAll`: save the percentage
when it changed; in any other state reset the remembered percentage to -1.
The C comparison `percentage != oldPercentage` is `unsigned int` vs `int`, so
`oldPercentage` is converted to `uint32_t`. -/
def SaveBlock (s : Sys) (percentage : Nat) : Sys × List Effect :=
  if s.state = BatteryState.nominal then
    if (percentage : Int) ≠ s.oldPercentage % (2 : Int) ^ 32 then
      ({s with persistedPercent := some percentage, oldPercentage := (percentage : Int)},
       [Effect.savePercent percentage])
    else (s, [])
  else ({s with oldPercentage := -1}, [])

/-- `PushToDataHub`'s JSON value (after its voltage and temperature reads
succeeded): charge levels are zeroed when the health makes them meaningless. -/
def PushToDataHub (healthStatus : HealthStatus) (percentage mAh : Nat)
    (uV cdegC : Int) (s : Sys) : Effect :=
  if healthStatus = HealthStatus.disconnected ∨ healthStatus = HealthStatus.error ∨
      healthStatus = HealthStatus.unknown then
    Effect.pushReading healthStatus 0 0 (IsCharging s) uV cdegC
  else
    Effect.pushReading healthStatus percentage mAh (IsCharging s) uV cdegC

/-- `ReportChargingStatusChange`: edge-triggered broadcast of the (masked)
charging status to every registered handler. -/
def ReportChargingStatusChange (s : Sys) : Sys × List Effect :=
  let chargingStatus := ma_battery_GetChargingStatus s
  if chargingStatus ≠ s.lastChargingStatus then
    ({s with lastChargingStatus := chargingStatus},
     List.replicate s.chargingRegs (Effect.chargingEvent chargingStatus))
  else (s, [])

/-- `ReportHealthStatusChange`: edge-triggered broadcast of the health status
to every registered handler. -/
def ReportHealthStatusChange (healthStatus : HealthStatus) (s : Sys) : Sys × List Effect :=
  if healthStatus ≠ s.lastHealthStatus then
    ({s with lastHealthStatus := healthStatus},
     List.replicate s.healthRegs (Effect.healthEvent healthStatus))
  else (s, [])

/-- The body of `ReportAll` once every required read has succeeded: the
`NOMINAL` persistence block, then the health read, then the three dispatch
passes, then the Data Hub push. -/
def ReportAllCore (inp : TickInputs) (s : Sys) (percentage mAh : Nat)
    (uV cdegC : Int) : Sys × List Effect :=
  let sb := SaveBlock s percentage
  let healthStatus := ma_battery_GetHealthStatus sb.1 inp.healthStr
  let ra := ReportBatteryLevelAlarms percentage sb.1.regs
  let s2 : Sys := {sb.1 with regs := ra.1}
  let rc := ReportChargingStatusChange s2
  let rh := ReportHealthStatusChange healthStatus rc.1
  (rh.1,
   sb.2 ++ ra.2 ++ rc.2 ++ rh.2 ++
     [PushToDataHub healthStatus percentage mAh uV cdegC rh.1])

/-- `ReportAll`: one reporting pass.  The charge-level read (skipped while
`DISCONNECTED`), and the voltage and temperature reads inside `PushToDataHub`,
are `LE_FATAL` on failure (`none`); a zero `Capacity` makes
`ComputePercentage` divide by zero (`none`).  In the C source the voltage and
temperature reads happen inside `PushToDataHub`, after the dispatch passes;
since `LE_FATAL` destroys the process (no successor state, `none`), checking
them up front is observationally equal in this model. -/
def ReportAll (inp : TickInputs) (s : Sys) : Option (Sys × List Effect) :=
  match (if s.state = BatteryState.disconnected then some 0
         else ma_battery_GetChargeRemaining inp.chargeNowRead) with
  | none => none
  | some mAh =>
    match ComputePercentage s.capacity mAh with
    | none => none
    | some percentage =>
      match inp.voltageRead, inp.tempRead with
      | some uV, some cdegC => some (ReportAllCore inp s percentage mAh uV cdegC)
      | _, _ => none

/-- `RunStateMachine`: dispatch the event to the current state's handler, then
run the reporting pass unconditionally. -/
def RunStateMachine (e : Event) (inp : TickInputs) (s : Sys) :
    Option (Sys × List Effect) :=
  let h := HandleEvent e s
  (ReportAll inp h.1).map (fun r => (r.1, h.2 ++ r.2))

/-- The variable updates at the top of `BatteryTimerExpiryHandler`:
`ReadChargeCounter` advances the counter pair, `ReadChargingStatus` refreshes
the status.  (`CurrentFlow`, a `double` used only in the pushed JSON, is not
modelled.) -/
def TickSample (counter : Int) (statusStr : Option String) (s : Sys) : Sys :=
  {s with oldChargeCounter := s.chargeCounter, chargeCounter := counter,
          chargingStatus := ReadChargingStatus statusStr}

/-- `BatteryTimerExpiryHandler`: one timer tick.  A failed charge-counter read
is `LE_FATAL` before any variable is updated. -/
def BatteryTimerExpiryHandler (inp : TickInputs) (s : Sys) :
    Option (Sys × List Effect) :=
  match inp.counter with
  | none => none
  | some counter =>
    RunStateMachine Event.timerExpired inp (TickSample counter inp.statusStr s)

/-- `SetCapacity` (the Data Hub push handler for the `capacity` resource).  The
`double` argument is modelled by an integer: negative values are rejected;
values not representable in the C conversions (`(uint32_t)capacity`,
`Capacity = capacity` into `int32_t`) are undefined behaviour (`none`).  On an
actual change the new value is stored, the persisted percentage deleted, and
`EVENT_CAPACITY_CHANGED` dispatched. -/
def SetCapacity (newCap : Int) (inp : TickInputs) (s : Sys) :
    Option (Sys × List Effect) :=
  if newCap < 0 then some (s, [])
  else if (2 : Int) ^ 32 ≤ newCap then none  -- (uint32_t) of the double: undefined
  else if newCap % (2 : Int) ^ 32 = s.capacity % (2 : Int) ^ 32 then some (s, [])
  else if (2 : Int) ^ 31 ≤ newCap then none  -- double → int32_t: undefined
  else
    (RunStateMachine Event.capacityChanged inp
        {s with capacity := newCap, persistedPercent := none}).map
      (fun r => (r.1, Effect.deletePercent :: r.2))

/-- `uint32_t → int32_t` conversion (two's complement wrap, as on the target).
-/
def int32OfUInt32 (n : Int) : Int :=
  if n % (2 : Int) ^ 32 < (2 : Int) ^ 31 then n % (2 : Int) ^ 32
  else n % (2 : Int) ^ 32 - (2 : Int) ^ 32

/-- `ma_adminbattery_SetTechnology`, restricted to its capacity handling (the
technology string, voltage and config/Data Hub default writes do not interact
with the state machine): `mAh` is a `uint32_t`; when it differs from
`Capacity` (compared as `uint32_t`), store it, delete the persisted
percentage, and dispatch `EVENT_CAPACITY_CHANGED`. -/
def ma_adminbattery_SetTechnology (mAh : Int) (inp : TickInputs) (s : Sys) :
    Option (Sys × List Effect) :=
  if s.capacity % (2 : Int) ^ 32 ≠ mAh % (2 : Int) ^ 32 then
    (RunStateMachine Event.capacityChanged inp
        {s with capacity := int32OfUInt32 mAh, persistedPercent := none}).map
      (fun r => (r.1, Effect.deletePercent :: r.2))
  else some (s, [])

/-- `ma_battery_AddLevelPercentageHandler`: register a level alarm; `high>100`
or `high<low` is rejected (NULL return, no registration).  Arguments are
`uint8_t`. -/
def ma_battery_AddLevelPercentageHandler (percentageLow percentageHigh : Nat)
    (s : Sys) : Sys :=
  let lo := percentageLow % 256
  let hi := percentageHigh % 256
  if hi > 100 then s
  else if hi < lo then s
  else {s with regs := s.regs ++ [⟨hi, lo, LevelAlarmType.levelNone⟩]}

/-- The outcome of `ma_battery_GetPercentRemaining`: the returned code, the
value written through the output pointer (`none` = left untouched), and
whether the hardware charge level was read. -/
structure GetPercentOutcome where
  result : LeResult
  written : Option Nat
  readHw : Bool
deriving DecidableEq, Repr

/-- `ma_battery_GetPercentRemaining`: `LE_NOT_FOUND` without touching the
hardware or the output when the capacity is unconfigured or the state is
`DISCONNECTED`/`STABILIZING`/`DETECTING_PRESENCE`; otherwise read the charge
level and convert it (a zero capacity again divides by zero: `none`). -/
def ma_battery_GetPercentRemaining (s : Sys) (chargeNowRead : Option Int) :
    Option GetPercentOutcome :=
  if s.capacity < 0 then some ⟨LeResult.notFound, none, false⟩
  else if s.state = BatteryState.disconnected ∨ s.state = BatteryState.stabilizing ∨
      s.state = BatteryState.detectingPresence then
    some ⟨LeResult.notFound, none, false⟩
  else
    match ma_battery_GetChargeRemaining chargeNowRead with
    | none => some ⟨LeResult.ioError, none, true⟩
    | some remaining =>
      match ComputePercentage s.capacity remaining with
      | none => none
      | some p => some ⟨LeResult.ok, some p, true⟩

/-- The state of a freshly started process before `COMPONENT_INIT` reads its
configuration: the C globals' static initializers. -/
def BaseSys : Sys :=
  { state := BatteryState.unconfigured
    capacity := -1
    chargeCounter := 0
    oldChargeCounter := 0
    chargingStatus := ChargingStatus.unknown
    oldPercentage := -1
    lastChargingStatus := ChargingStatus.unknown
    lastHealthStatus := HealthStatus.unknown
    persistedPercent := none
    regs := []
    chargingRegs := 0
    healthRegs := 0 }

/-- `COMPONENT_INIT`: read the configured capacity (absent or negative keeps
`UNCONFIGURED` with the timer stopped); otherwise read the charge counter
(`LE_FATAL` on failure), then resume `NOMINAL` if a percentage was persisted,
else start `DETECTING_PRESENCE`.  `cfgCapacity` is the `batteryInfo/capacity`
key (`none` = absent), `persisted` the `batteryInfo/percent` key.  The stored
capacity passes through `ma_battery_GetTechnology`'s `uint16_t` output. -/
def ComponentInit (cfgCapacity : Option Int) (counterRead : Option Int)
    (persisted : Option Nat) : Option Sys :=
  let cap := cfgCapacity.getD (-1)
  if cap < 0 then some {BaseSys with persistedPercent := persisted}
  else
    match counterRead with
    | none => none
    | some counter =>
      let s := {BaseSys with
        capacity := cap % (2 : Int) ^ 16
        chargeCounter := counter
        oldChargeCounter := counter
        persistedPercent := persisted}
      match persisted with
      | some _ => some {s with state := BatteryState.nominal}
      | none => some {s with state := BatteryState.detectingPresence}

/-- The external stimuli of the service: a timer tick, a capacity push from
the Data Hub, the admin capacity API, and registry updates.  (`SetPeriod` and
`SetNominalVoltage` touch neither the state machine nor the persisted
percentage and are omitted.) -/
inductive Act
  | timerTick (inp : TickInputs)
  | pushCapacity (newCap : Int) (inp : TickInputs)
  | adminSetTechnology (mAh : Int) (inp : TickInputs)
  | addLevelAlarm (percentageLow percentageHigh : Nat)
  | removeLevelAlarm (i : Nat)
  | addChargingHandler
  | addHealthHandler

/-- One externally triggered operation of the service process. -/
def BatteryStep : Act → Sys → Option (Sys × List Effect)
  | .timerTick inp, s => BatteryTimerExpiryHandler inp s
  | .pushCapacity newCap inp, s => SetCapacity newCap inp s
  | .adminSetTechnology mAh inp, s =>
      ma_adminbattery_SetTechnology (mAh % (2 : Int) ^ 32) inp s
  | .addLevelAlarm lo hi, s => some (ma_battery_AddLevelPercentageHandler lo hi s, [])
  | .removeLevelAlarm i, s => some ({s with regs := s.regs.eraseIdx i}, [])
  | .addChargingHandler, s => some ({s with chargingRegs := s.chargingRegs + 1}, [])
  | .addHealthHandler, s => some ({s with healthRegs := s.healthRegs + 1}, [])

/-- The states the service process can reach: a `COMPONENT_INIT` outcome
followed by any sequence of successful operations. -/
inductive Reachable : Sys → Prop
  | init (cfgCapacity counterRead : Option Int) (persisted : Option Nat) (s : Sys) :
      ComponentInit cfgCapacity counterRead persisted = some s → Reachable s
  | step (a : Act) (s s' : Sys) (eff : List Effect) :
      Reachable s → BatteryStep a s = some (s', eff) → Reachable s'

/-- The persistence discipline: in the states where no battery is known to be
present (or the monitor is still settling), the `batteryInfo/percent` key is
absent. -/
def PersistInv (s : Sys) : Prop :=
  (s.state = BatteryState.stabilizing ∨ s.state = BatteryState.detectingPresence ∨
   s.state = BatteryState.disconnected) → s.persistedPercent = none

/-- A cycle's inputs with every read succeeding (status `Charging`). -/
def OkInputs : TickInputs :=
  { counter := some 0, statusStr := some "Charging", chargeNowRead := some 1000000,
    healthStr := some "Good", voltageRead := some 3700000, tempRead := some 2500 }

/-- A cycle whose `voltage_now` read fails (status `Discharging`). -/
def VoltageFailInputs : TickInputs :=
  { OkInputs with statusStr := some "Discharging", voltageRead := none }

/-- A cycle whose `charge_counter` read fails. -/
def CounterFailInputs : TickInputs := { OkInputs with counter := none }

/-- The state produced by `ComponentInit (some 2000) (some 0) none`:
capacity configured, no persisted percentage, detecting presence. -/
def InitSys : Sys :=
  { BaseSys with state := BatteryState.detectingPresence, capacity := 2000 }

/-- `InitSys` after one tick with `OkInputs` (constant counter, `Charging`):
the presence check fails, so the battery is declared disconnected. -/
def TickedSys : Sys :=
  { BaseSys with
    state := BatteryState.disconnected, capacity := 2000,
    chargingStatus := ChargingStatus.charging,
    lastHealthStatus := HealthStatus.disconnected }

/-- The effects of that tick: only the Data Hub push (levels zeroed since the
health is `disconnected`). -/
def TickedEff : List Effect :=
  [Effect.pushReading HealthStatus.disconnected 0 0 false 3700000 2500]

/-- Detecting presence while the counter moved and the charger says `Full`. -/
def DpFullSys : Sys :=
  { BaseSys with
    state := BatteryState.detectingPresence, capacity := 2000,
    chargeCounter := 1, chargingStatus := ChargingStatus.full }

/-- Detecting presence with a constant counter and status `Charging`. -/
def DpChargingSys : Sys :=
  { BaseSys with
    state := BatteryState.detectingPresence, capacity := 2000,
    chargingStatus := ChargingStatus.charging }

/-- A calibrated (`NOMINAL`) state with capacity 2000 mAh. -/
def NominalSys : Sys :=
  { BaseSys with state := BatteryState.nominal, capacity := 2000 }

/-- A `DISCONNECTED` state with capacity 2000 mAh. -/
def DisconnectedSys : Sys :=
  { BaseSys with state := BatteryState.disconnected, capacity := 2000 }

/-- A `NOMINAL` state about to broadcast a `Full` charging edge to two
registered charging-status handlers. -/
def FullEdgeSys : Sys :=
  { BaseSys with
    state := BatteryState.nominal, capacity := 2000,
    chargingStatus := ChargingStatus.full, chargingRegs := 2 }

theorem round_half_up (t : Nat) :
    t / 10 + (if t % 10 ≥ 5 then 1 else 0) = (t + 5) / 10 := by
  split <;> omega

theorem round_plus_one (t : Nat) :
    (if t % 10 ≥ 5 then t / 10 + 1 else t / 10) = (t + 5) / 10 := by
  split <;> omega

theorem clamp_eq_min (p : Nat) : (if p > 100 then 100 else p) = min p 100 := by
  split <;> omega

/-- In the `int32_t` range for a positive capacity, `ComputePercentage` is the
clamped half-up rounding of `(1000*mAh mod 2^32) / capacity` tenths. -/
theorem ComputePercentage_eq (capacity : Int) (mAh : Nat) (h0 : 0 < capacity)
    (h1 : capacity < (2 : Int) ^ 31) :
    ComputePercentage capacity mAh =
      some (min ((1000 * mAh % 2 ^ 32 / capacity.toNat + 5) / 10) 100) := by
  have h32 : capacity < (2 : Int) ^ 32 := lt_trans h1 (by norm_num)
  have hmod : capacity % (2 : Int) ^ 32 = capacity :=
    Int.emod_eq_of_lt (le_of_lt h0) h32
  have hne : capacity.toNat ≠ 0 := by omega
  simp only [ComputePercentage, hmod, if_neg hne, round_plus_one, clamp_eq_min]

/-- Without 32-bit overflow of the product (`1000*mAh < 2^32`), the wrap
disappears. -/
theorem ComputePercentage_eq_of_small (capacity : Int) (mAh : Nat) (h0 : 0 < capacity)
    (h1 : capacity < (2 : Int) ^ 31) (h2 : 1000 * mAh < 2 ^ 32) :
    ComputePercentage capacity mAh =
      some (min ((1000 * mAh / capacity.toNat + 5) / 10) 100) := by
  rw [ComputePercentage_eq capacity mAh h0 h1, Nat.mod_eq_of_lt h2]

theorem SpecPercentage_eq (mAh cap : Nat) :
    SpecPercentage mAh cap = min ((1000 * mAh / cap + 5) / 10) 100 := by
  simp only [SpecPercentage, round_half_up]

theorem SaveBlock_state (s : Sys) (p : Nat) : (SaveBlock s p).1.state = s.state := by
  unfold SaveBlock
  split
  · split <;> rfl
  · rfl

theorem SaveBlock_capacity (s : Sys) (p : Nat) :
    (SaveBlock s p).1.capacity = s.capacity := by
  unfold SaveBlock
  split
  · split <;> rfl
  · rfl

theorem SaveBlock_persist (s : Sys) (p : Nat) (h : s.state ≠ BatteryState.nominal) :
    (SaveBlock s p).1.persistedPercent = s.persistedPercent := by
  unfold SaveBlock
  split
  next h' => exact absurd h' h
  next => rfl

theorem SaveBlock_save (s : Sys) (p q : Nat)
    (h : Effect.savePercent q ∈ (SaveBlock s p).2) : s.state = BatteryState.nominal := by
  unfold SaveBlock at h
  split at h
  next h' => exact h'
  next => simp at h

theorem ReportBatteryLevelAlarms_no_save (percentage q : Nat)
    (regs : List LevelAlarmReg) :
    Effect.savePercent q ∉ (ReportBatteryLevelAlarms percentage regs).2 := by
  induction regs with
  | nil => simp [ReportBatteryLevelAlarms]
  | cons reg rest ih =>
    intro hmem
    rw [ReportBatteryLevelAlarms] at hmem
    rcases List.mem_append.mp hmem with h1 | h2
    · rcases hr : (LevelAlarmCheck percentage reg).2 with _ | b <;>
        rw [hr] at h1 <;> simp at h1
    · exact ih h2

theorem ReportChargingStatusChange_state (s : Sys) :
    (ReportChargingStatusChange s).1.state = s.state := by
  unfold ReportChargingStatusChange
  dsimp only
  split <;> rfl

theorem ReportChargingStatusChange_capacity (s : Sys) :
    (ReportChargingStatusChange s).1.capacity = s.capacity := by
  unfold ReportChargingStatusChange
  dsimp only
  split <;> rfl

theorem ReportChargingStatusChange_persist (s : Sys) :
    (ReportChargingStatusChange s).1.persistedPercent = s.persistedPercent := by
  unfold ReportChargingStatusChange
  dsimp only
  split <;> rfl

theorem ReportChargingStatusChange_no_save (s : Sys) (q : Nat) :
    Effect.savePercent q ∉ (ReportChargingStatusChange s).2 := by
  unfold ReportChargingStatusChange
  dsimp only
  split <;> intro h <;> simp [List.mem_replicate] at h

theorem ReportHealthStatusChange_state (hs : HealthStatus) (s : Sys) :
    (ReportHealthStatusChange hs s).1.state = s.state := by
  unfold ReportHealthStatusChange
  split <;> rfl

theorem ReportHealthStatusChange_capacity (hs : HealthStatus) (s : Sys) :
    (ReportHealthStatusChange hs s).1.capacity = s.capacity := by
  unfold ReportHealthStatusChange
  split <;> rfl

theorem ReportHealthStatusChange_persist (hs : HealthStatus) (s : Sys) :
    (ReportHealthStatusChange hs s).1.persistedPercent = s.persistedPercent := by
  unfold ReportHealthStatusChange
  split <;> rfl

theorem ReportHealthStatusChange_no_save (hs : HealthStatus) (s : Sys) (q : Nat) :
    Effect.savePercent q ∉ (ReportHealthStatusChange hs s).2 := by
  unfold ReportHealthStatusChange
  split <;> intro h <;> simp [List.mem_replicate] at h

theorem ReportAllCore_state (inp : TickInputs) (s : Sys) (percentage mAh : Nat)
    (uV cdegC : Int) :
    (ReportAllCore inp s percentage mAh uV cdegC).1.state = s.state := by
  simp only [ReportAllCore, ReportHealthStatusChange_state,
    ReportChargingStatusChange_state]
  exact SaveBlock_state s percentage

theorem ReportAllCore_capacity (inp : TickInputs) (s : Sys) (percentage mAh : Nat)
    (uV cdegC : Int) :
    (ReportAllCore inp s percentage mAh uV cdegC).1.capacity = s.capacity := by
  simp only [ReportAllCore, ReportHealthStatusChange_capacity,
    ReportChargingStatusChange_capacity]
  exact SaveBlock_capacity s percentage

theorem ReportAllCore_persist (inp : TickInputs) (s : Sys) (percentage mAh : Nat)
    (uV cdegC : Int) (h : s.state ≠ BatteryState.nominal) :
    (ReportAllCore inp s percentage mAh uV cdegC).1.persistedPercent =
      s.persistedPercent := by
  simp only [ReportAllCore, ReportHealthStatusChange_persist,
    ReportChargingStatusChange_persist]
  exact SaveBlock_persist s percentage h

theorem ReportAllCore_save (inp : TickInputs) (s : Sys) (percentage mAh : Nat)
    (uV cdegC : Int) (q : Nat)
    (h : Effect.savePercent q ∈ (ReportAllCore inp s percentage mAh uV cdegC).2) :
    s.state = BatteryState.nominal := by
  simp only [ReportAllCore, List.mem_append] at h
  rcases h with ((((h | h) | h) | h) | h)
  · exact SaveBlock_save s percentage q h
  · exact absurd h (ReportBatteryLevelAlarms_no_save percentage q _)
  · exact absurd h (ReportChargingStatusChange_no_save _ q)
  · exact absurd h (ReportHealthStatusChange_no_save _ _ q)
  · rw [List.mem_singleton] at h
    unfold PushToDataHub at h
    split at h <;> simp at h

theorem ReportAll_some (inp : TickInputs) (s s' : Sys) (eff : List Effect)
    (h : ReportAll inp s = some (s', eff)) :
    s'.state = s.state ∧ s'.capacity = s.capacity ∧
    (s.state ≠ BatteryState.nominal → s'.persistedPercent = s.persistedPercent) ∧
    (∀ q, Effect.savePercent q ∈ eff → s.state = BatteryState.nominal) := by
  unfold ReportAll at h
  split at h
  · exact absurd h (by simp)
  next mAh heq =>
    split at h
    · exact absurd h (by simp)
    next percentage hcp =>
      split at h
      next uV cdegC hv ht =>
        injection h with h'
        have hs' : s' = (ReportAllCore inp s percentage mAh uV cdegC).1 := by
          rw [h']
        have he' : eff = (ReportAllCore inp s percentage mAh uV cdegC).2 := by
          rw [h']
        subst hs' he'
        exact ⟨ReportAllCore_state inp s percentage mAh uV cdegC,
               ReportAllCore_capacity inp s percentage mAh uV cdegC,
               ReportAllCore_persist inp s percentage mAh uV cdegC,
               fun q hq => ReportAllCore_save inp s percentage mAh uV cdegC q hq⟩
      next => exact absurd h (by simp)

theorem ReportAll_voltage_fatal (inp : TickInputs) (s : Sys)
    (h : inp.voltageRead = none) : ReportAll inp s = none := by
  unfold ReportAll
  split
  · rfl
  · split
    · rfl
    · rw [h]

theorem ReportAll_temp_fatal (inp : TickInputs) (s : Sys)
    (h : inp.tempRead = none) : ReportAll inp s = none := by
  unfold ReportAll
  split
  · rfl
  · split
    · rfl
    · rw [h]
      cases inp.voltageRead <;> rfl

theorem ReportAll_charge_fatal (inp : TickInputs) (s : Sys)
    (h : inp.chargeNowRead = none) (hs : s.state ≠ BatteryState.disconnected) :
    ReportAll inp s = none := by
  unfold ReportAll
  rw [if_neg hs, h]
  rfl

theorem RunStateMachine_some (e : Event) (inp : TickInputs) (s s' : Sys)
    (eff : List Effect) (h : RunStateMachine e inp s = some (s', eff)) :
    ∃ eff2, ReportAll inp (HandleEvent e s).1 = some (s', eff2) ∧
      eff = (HandleEvent e s).2 ++ eff2 := by
  unfold RunStateMachine at h
  dsimp only at h
  cases hra : ReportAll inp (HandleEvent e s).1 with
  | none =>
    rw [hra] at h
    exact absurd h (by simp)
  | some r =>
    obtain ⟨rs, re⟩ := r
    rw [hra] at h
    have h' : (rs, (HandleEvent e s).2 ++ re) = (s', eff) := Option.some.inj h
    obtain ⟨h1, h2⟩ := Prod.mk.inj h'
    subst h1
    subst h2
    exact ⟨re, rfl, rfl⟩

theorem HandleEvent_capacityChanged (s : Sys) :
    HandleEvent Event.capacityChanged s =
      ({s with state := BatteryState.stabilizing}, []) := by
  cases s with
  | mk st cap cc occ cst op lcs lhs pp rg cr hr =>
    unfold HandleEvent
    cases st <;> rfl

theorem HandleEvent_capacity (e : Event) (s : Sys) :
    (HandleEvent e s).1.capacity = s.capacity := by
  unfold HandleEvent
  cases e <;> cases hs : s.state <;>
    simp only [UnconfiguredState, StabilizingState, DetectingPresenceState,
      DisconnectedState, CalibratingState, NominalState, StartStabilization,
      StartCalibration] <;>
    (repeat' split) <;> rfl

theorem HandleEvent_no_save (e : Event) (s : Sys) (q : Nat) :
    Effect.savePercent q ∉ (HandleEvent e s).2 := by
  unfold HandleEvent
  cases e <;> cases hs : s.state <;>
    simp only [UnconfiguredState, StabilizingState, DetectingPresenceState,
      DisconnectedState, CalibratingState, NominalState, StartStabilization,
      StartCalibration, UpdateChargeLevel] <;>
    (repeat' split) <;> simp

theorem HandleEvent_timer_inv (s : Sys) (h : PersistInv s) :
    PersistInv (HandleEvent Event.timerExpired s).1 := by
  unfold HandleEvent PersistInv at *
  cases hs : s.state <;>
    simp only [UnconfiguredState, StabilizingState, DetectingPresenceState,
      DisconnectedState, CalibratingState, NominalState, StartStabilization,
      StartCalibration] <;>
    (repeat' split) <;> intro hmem <;> simp_all

theorem mapDelete_some (o : Option (Sys × List Effect)) (s' : Sys) (eff : List Effect)
    (h : o.map (fun r => (r.1, Effect.deletePercent :: r.2)) = some (s', eff)) :
    ∃ eff2, o = some (s', eff2) ∧ eff = Effect.deletePercent :: eff2 := by
  cases o with
  | none => exact absurd h (by simp)
  | some r =>
    obtain ⟨rs, re⟩ := r
    obtain ⟨h1, h2⟩ := Prod.mk.inj (Option.some.inj h)
    subst h1
    subst h2
    exact ⟨re, rfl, rfl⟩

theorem RunStateMachine_capacityChanged (inp : TickInputs) (t s' : Sys)
    (eff : List Effect)
    (h : RunStateMachine Event.capacityChanged inp t = some (s', eff)) :
    s'.state = BatteryState.stabilizing ∧
    s'.persistedPercent = t.persistedPercent ∧
    s'.capacity = t.capacity ∧
    (∀ q, Effect.savePercent q ∉ eff) := by
  obtain ⟨eff2, hra, heff⟩ := RunStateMachine_some _ _ _ _ _ h
  rw [HandleEvent_capacityChanged] at hra heff
  obtain ⟨h1, h2, h3, h4⟩ := ReportAll_some _ _ _ _ hra
  refine ⟨h1, h3 (by simp), h2, ?_⟩
  intro q hq
  rw [heff] at hq
  simp only [List.nil_append] at hq
  exact absurd (h4 q hq) (by simp)

theorem SetCapacity_some (newCap : Int) (inp : TickInputs) (s s' : Sys)
    (eff : List Effect) (h : SetCapacity newCap inp s = some (s', eff)) :
    (s' = s ∧ eff = []) ∨
    (s'.state = BatteryState.stabilizing ∧ s'.persistedPercent = none ∧
     (∀ q, Effect.savePercent q ∉ eff)) := by
  unfold SetCapacity at h
  split at h
  · obtain ⟨h1, h2⟩ := Prod.mk.inj (Option.some.inj h)
    exact Or.inl ⟨h1.symm, h2.symm⟩
  · split at h
    · exact absurd h (by simp)
    · split at h
      · obtain ⟨h1, h2⟩ := Prod.mk.inj (Option.some.inj h)
        exact Or.inl ⟨h1.symm, h2.symm⟩
      · split at h
        · exact absurd h (by simp)
        · obtain ⟨eff2, hrm, heff⟩ := mapDelete_some _ _ _ h
          obtain ⟨h1, h2, h3, h4⟩ := RunStateMachine_capacityChanged _ _ _ _ hrm
          refine Or.inr ⟨h1, by rw [h2], ?_⟩
          intro q hq
          rw [heff] at hq
          rcases List.mem_cons.mp hq with h5 | h5
          · simp at h5
          · exact h4 q h5

theorem SetTechnology_some (mAh : Int) (inp : TickInputs) (s s' : Sys)
    (eff : List Effect)
    (h : ma_adminbattery_SetTechnology mAh inp s = some (s', eff)) :
    (s' = s ∧ eff = []) ∨
    (s'.state = BatteryState.stabilizing ∧ s'.persistedPercent = none ∧
     (∀ q, Effect.savePercent q ∉ eff)) := by
  unfold ma_adminbattery_SetTechnology at h
  split at h
  · obtain ⟨eff2, hrm, heff⟩ := mapDelete_some _ _ _ h
    obtain ⟨h1, h2, h3, h4⟩ := RunStateMachine_capacityChanged _ _ _ _ hrm
    refine Or.inr ⟨h1, by rw [h2], ?_⟩
    intro q hq
    rw [heff] at hq
    rcases List.mem_cons.mp hq with h5 | h5
    · simp at h5
    · exact h4 q h5
  · obtain ⟨h1, h2⟩ := Prod.mk.inj (Option.some.inj h)
    exact Or.inl ⟨h1.symm, h2.symm⟩

theorem BatteryTick_some (inp : TickInputs) (s s' : Sys) (eff : List Effect)
    (h : BatteryTimerExpiryHandler inp s = some (s', eff)) :
    ∃ c eff2,
      inp.counter = some c ∧
      ReportAll inp
          (HandleEvent Event.timerExpired (TickSample c inp.statusStr s)).1 =
        some (s', eff2) ∧
      eff = (HandleEvent Event.timerExpired (TickSample c inp.statusStr s)).2 ++
        eff2 := by
  unfold BatteryTimerExpiryHandler at h
  cases hc : inp.counter with
  | none => rw [hc] at h; exact absurd h (by simp)
  | some c =>
    rw [hc] at h
    have h' : RunStateMachine Event.timerExpired inp
        (TickSample c inp.statusStr s) = some (s', eff) := h
    obtain ⟨eff2, hra, heff⟩ := RunStateMachine_some _ _ _ _ _ h'
    exact ⟨c, eff2, rfl, hra, heff⟩

theorem BatteryStep_inv (a : Act) (s s' : Sys) (eff : List Effect)
    (h : PersistInv s) (hstep : BatteryStep a s = some (s', eff)) :
    PersistInv s' := by
  cases a with
  | timerTick inp =>
    obtain ⟨c, eff2, hc, hra, heff⟩ := BatteryTick_some _ _ _ _ hstep
    have h2 : PersistInv
        (HandleEvent Event.timerExpired (TickSample c inp.statusStr s)).1 :=
      HandleEvent_timer_inv _ h
    obtain ⟨hstate, hcap, hpers, _⟩ := ReportAll_some _ _ _ _ hra
    intro hmem
    rw [hstate] at hmem
    have hne : (HandleEvent Event.timerExpired
        (TickSample c inp.statusStr s)).1.state ≠ BatteryState.nominal := by
      rcases hmem with h3 | h3 | h3 <;> rw [h3] <;> simp
    rw [hpers hne]
    exact h2 hmem
  | pushCapacity newCap inp =>
    rcases SetCapacity_some _ _ _ _ _ hstep with ⟨rfl, _⟩ | ⟨h1, h2, _⟩
    · exact h
    · intro _; exact h2
  | adminSetTechnology mAh inp =>
    rcases SetTechnology_some _ _ _ _ _ hstep with ⟨rfl, _⟩ | ⟨h1, h2, _⟩
    · exact h
    · intro _; exact h2
  | addLevelAlarm lo hi =>
    obtain ⟨h1, h2⟩ := Prod.mk.inj (Option.some.inj hstep)
    subst h1
    unfold ma_battery_AddLevelPercentageHandler
    dsimp only
    split
    · exact h
    · split
      · exact h
      · exact h
  | removeLevelAlarm i =>
    obtain ⟨h1, h2⟩ := Prod.mk.inj (Option.some.inj hstep)
    subst h1
    exact h
  | addChargingHandler =>
    obtain ⟨h1, h2⟩ := Prod.mk.inj (Option.some.inj hstep)
    subst h1
    exact h
  | addHealthHandler =>
    obtain ⟨h1, h2⟩ := Prod.mk.inj (Option.some.inj hstep)
    subst h1
    exact h

theorem Reachable_inv (s : Sys) (h : Reachable s) : PersistInv s := by
  induction h with
  | init cfg cr pers s hinit =>
    unfold ComponentInit at hinit
    dsimp only at hinit
    split at hinit
    · obtain rfl := Option.some.inj hinit
      intro hmem
      simp [BaseSys] at hmem
    · split at hinit
      · exact absurd hinit (by simp)
      · split at hinit
        · obtain rfl := Option.some.inj hinit
          intro hmem
          simp [BaseSys] at hmem
        · obtain rfl := Option.some.inj hinit
          intro hmem
          rfl
  | step a s s' eff hr hstep ih => exact BatteryStep_inv a s s' eff ih hstep

theorem BatteryStep_save (a : Act) (s s' : Sys) (eff : List Effect)
    (hstep : BatteryStep a s = some (s', eff)) (q : Nat)
    (hq : Effect.savePercent q ∈ eff) : s'.state = BatteryState.nominal := by
  cases a with
  | timerTick inp =>
    obtain ⟨c, eff2, hc, hra, heff⟩ := BatteryTick_some _ _ _ _ hstep
    obtain ⟨hstate, hcap, hpers, hsave⟩ := ReportAll_some _ _ _ _ hra
    rw [heff] at hq
    rcases List.mem_append.mp hq with h1 | h1
    · exact absurd h1 (HandleEvent_no_save _ _ q)
    · rw [hstate]
      exact hsave q h1
  | pushCapacity newCap inp =>
    rcases SetCapacity_some _ _ _ _ _ hstep with ⟨rfl, rfl⟩ | ⟨h1, h2, h3⟩
    · simp at hq
    · exact absurd hq (h3 q)
  | adminSetTechnology mAh inp =>
    rcases SetTechnology_some _ _ _ _ _ hstep with ⟨rfl, rfl⟩ | ⟨h1, h2, h3⟩
    · simp at hq
    · exact absurd hq (h3 q)
  | addLevelAlarm lo hi =>
    obtain ⟨h1, h2⟩ := Prod.mk.inj (Option.some.inj hstep)
    rw [← h2] at hq
    simp at hq
  | removeLevelAlarm i =>
    obtain ⟨h1, h2⟩ := Prod.mk.inj (Option.some.inj hstep)
    rw [← h2] at hq
    simp at hq
  | addChargingHandler =>
    obtain ⟨h1, h2⟩ := Prod.mk.inj (Option.some.inj hstep)
    rw [← h2] at hq
    simp at hq
  | addHealthHandler =>
    obtain ⟨h1, h2⟩ := Prod.mk.inj (Option.some.inj hstep)
    rw [← h2] at hq
    simp at hq

theorem BatteryStep_capacity_change (a : Act) (s s' : Sys) (eff : List Effect)
    (hstep : BatteryStep a s = some (s', eff))
    (hcap : s'.capacity ≠ s.capacity) : s'.persistedPercent = none := by
  cases a with
  | timerTick inp =>
    obtain ⟨c, eff2, hc, hra, heff⟩ := BatteryTick_some _ _ _ _ hstep
    obtain ⟨hstate, hcapacity, hpers, hsave⟩ := ReportAll_some _ _ _ _ hra
    rw [hcapacity, HandleEvent_capacity] at hcap
    exact absurd rfl hcap
  | pushCapacity newCap inp =>
    rcases SetCapacity_some _ _ _ _ _ hstep with ⟨rfl, rfl⟩ | ⟨h1, h2, h3⟩
    · exact absurd rfl hcap
    · exact h2
  | adminSetTechnology mAh inp =>
    rcases SetTechnology_some _ _ _ _ _ hstep with ⟨rfl, rfl⟩ | ⟨h1, h2, h3⟩
    · exact absurd rfl hcap
    · exact h2
  | addLevelAlarm lo hi =>
    obtain ⟨h1, h2⟩ := Prod.mk.inj (Option.some.inj hstep)
    rw [← h1] at hcap
    unfold ma_battery_AddLevelPercentageHandler at hcap
    dsimp only at hcap
    split at hcap
    · exact absurd rfl hcap
    · split at hcap <;> exact absurd rfl hcap
  | removeLevelAlarm i =>
    obtain ⟨h1, h2⟩ := Prod.mk.inj (Option.some.inj hstep)
    rw [← h1] at hcap
    exact absurd rfl hcap
  | addChargingHandler =>
    obtain ⟨h1, h2⟩ := Prod.mk.inj (Option.some.inj hstep)
    rw [← h1] at hcap
    exact absurd rfl hcap
  | addHealthHandler =>
    obtain ⟨h1, h2⟩ := Prod.mk.inj (Option.some.inj hstep)
    rw [← h1] at hcap
    exact absurd rfl hcap

/-- C1 (counterexample): with a moved charge counter but a sampled status of
`Full`, `DetectingPresence` does not transition to `Calibrating` as claimed:
`StartCalibration` sends it straight to `Nominal`. -/
theorem C1_counterexample :
    DpFullSys.chargeCounter ≠ DpFullSys.oldChargeCounter ∧
    DpFullSys.state = BatteryState.detectingPresence ∧
    (HandleEvent Event.timerExpired DpFullSys).1.state = BatteryState.nominal ∧
    (HandleEvent Event.timerExpired DpFullSys).1.state ≠
      BatteryState.calibrating := by
  decide

/-- C1 (amended): on a timer-expired event, a charge counter equal to its
previous value together with status `Charging` drives `DetectingPresence`,
`Calibrating` and `Nominal` to `Disconnected`; a counter that changed by any
nonzero delta drives `DetectingPresence` and `Disconnected` into calibration,
which lands in `Calibrating` unless the sampled status is `Full`, in which
case it lands directly in `Nominal`. -/
theorem C1_presence_transitions (s : Sys) :
    (s.chargeCounter = s.oldChargeCounter →
     s.chargingStatus = ChargingStatus.charging →
     (s.state = BatteryState.detectingPresence ∨
      s.state = BatteryState.calibrating ∨ s.state = BatteryState.nominal) →
     (HandleEvent Event.timerExpired s).1.state = BatteryState.disconnected) ∧
    (s.chargeCounter ≠ s.oldChargeCounter →
     (s.state = BatteryState.detectingPresence ∨
      s.state = BatteryState.disconnected) →
     (HandleEvent Event.timerExpired s).1.state =
       (if s.chargingStatus = ChargingStatus.full then BatteryState.nominal
        else BatteryState.calibrating)) := by
  constructor
  · intro hce hch hst
    rcases hst with h | h | h <;>
      simp [HandleEvent, h, DetectingPresenceState, CalibratingState,
        NominalState, hce, hch, StartCalibration]
  · intro hne hst
    rcases hst with h | h <;>
      simp only [HandleEvent, h, DetectingPresenceState, DisconnectedState,
        if_pos hne, StartCalibration] <;>
      split <;> rfl

/-- C1 witness: from `DetectingPresence` with a constant counter and status
`Charging`, the tick lands in `Disconnected`. -/
theorem C1_witness :
    (HandleEvent Event.timerExpired DpChargingSys).1.state =
      BatteryState.disconnected :=
  (C1_presence_transitions DpChargingSys).1 rfl rfl (Or.inl rfl)

/-- C2 (counterexample): for `mAh = 4294968` the 32-bit product `1000*mAh`
wraps, so `ComputePercentage` (capacity 1) returns 70 while the claimed exact
formula gives the clamped 100. -/
theorem C2_counterexample :
    ComputePercentage 1 4294968 = some 70 ∧
    SpecPercentage 4294968 1 = 100 ∧ (70 : Nat) ≠ 100 := by
  decide

/-- C2 (amended): for a positive `int32_t` capacity and any `mAh` whose
product `1000*mAh` does not overflow 32 bits (in particular every `uint16_t`
level the callers pass), `ComputePercentage` equals the spec's rounded and
clamped formula; the three claimed concrete values hold as stated. -/
theorem C2_percentage (capacity : Int) (mAh : Nat) (h0 : 0 < capacity)
    (h1 : capacity < (2 : Int) ^ 31) (h2 : 1000 * mAh < 2 ^ 32) :
    ComputePercentage capacity mAh = some (SpecPercentage mAh capacity.toNat) ∧
    ComputePercentage 2000 1000 = some 50 ∧
    ComputePercentage 2000 1955 = some 98 ∧
    ComputePercentage 2000 2500 = some 100 := by
  refine ⟨?_, by decide, by decide, by decide⟩
  rw [ComputePercentage_eq_of_small capacity mAh h0 h1 h2, SpecPercentage_eq]

/-- C2 witness: the formula agreement evaluated at capacity 2000, 1000 mAh. -/
theorem C2_witness :
    ComputePercentage 2000 1000 = some (SpecPercentage 1000 (2000 : Int).toNat) :=
  (C2_percentage 2000 1000 (by decide) (by decide) (by decide)).1

/-- C3: delivering `EVENT_CAPACITY_CHANGED` leaves every state — including
`Stabilizing` itself (idempotent re-entry) — in `Stabilizing`. -/
theorem C3_capacityChanged_stabilizing (s : Sys) :
    (HandleEvent Event.capacityChanged s).1.state = BatteryState.stabilizing := by
  rw [HandleEvent_capacityChanged]

/-- C4: per registration and sample, a high alarm fires iff the percentage
exceeds the high threshold and the last alarm kind is not High (which it then
becomes); otherwise a low alarm fires iff the percentage is below the low
threshold and the last kind is not Low (which it then becomes); at most one
alarm fires; and on thresholds (low=20, high=90) from `levelNone`, the sample
sequence [50, 95, 95, 15, 15, 95] fires exactly high at index 1, low at
index 3, high at index 5. -/
theorem C4_alarm_hysteresis :
    (∀ (reg : LevelAlarmReg) (p : Nat),
      ((LevelAlarmCheck p reg).2 = some true ↔
        p > reg.percentageHigh ∧
        reg.lastAlarmType ≠ LevelAlarmType.levelHigh) ∧
      ((LevelAlarmCheck p reg).2 = some true →
        (LevelAlarmCheck p reg).1.lastAlarmType = LevelAlarmType.levelHigh) ∧
      ((LevelAlarmCheck p reg).2 = some false ↔
        ¬(p > reg.percentageHigh ∧
          reg.lastAlarmType ≠ LevelAlarmType.levelHigh) ∧
        p < reg.percentageLow ∧
        reg.lastAlarmType ≠ LevelAlarmType.levelLow) ∧
      ((LevelAlarmCheck p reg).2 = some false →
        (LevelAlarmCheck p reg).1.lastAlarmType = LevelAlarmType.levelLow) ∧
      ¬((LevelAlarmCheck p reg).2 = some true ∧
        (LevelAlarmCheck p reg).2 = some false)) ∧
    LevelAlarmTrace ⟨90, 20, LevelAlarmType.levelNone⟩ [50, 95, 95, 15, 15, 95] =
      [none, some true, none, some false, none, some true] := by
  refine ⟨fun reg p => ?_, by decide⟩
  unfold LevelAlarmCheck
  by_cases h1 : p > reg.percentageHigh ∧
      reg.lastAlarmType ≠ LevelAlarmType.levelHigh
  · rw [if_pos h1]
    simp [h1]
  · rw [if_neg h1]
    by_cases h2 : p < reg.percentageLow ∧
        reg.lastAlarmType ≠ LevelAlarmType.levelLow
    · rw [if_pos h2]
      simp [h1, h2]
    · rw [if_neg h2]
      simp [h1, h2]

/-- C4 witness: at 95 percent with last kind `levelNone`, the high alarm
fires. -/
theorem C4_witness :
    (LevelAlarmCheck 95 ⟨90, 20, LevelAlarmType.levelNone⟩).2 = some true :=
  ((C4_alarm_hysteresis.1 ⟨90, 20, LevelAlarmType.levelNone⟩ 95).1).mpr
    (by decide)

/-- C5 (counterexample): starting from the dispatcher's initial last-broadcast
value `Unknown` (the C `static` initializer), the sequence
[Charging, Charging, Full, Full, Charging] also fires at index 0, so the
claimed "fires exactly at indices 2 and 4" fails. -/
theorem C5_counterexample :
    StatusChangeTrace ChargingStatus.unknown
        [ChargingStatus.charging, ChargingStatus.charging, ChargingStatus.full,
         ChargingStatus.full, ChargingStatus.charging] ≠
      [false, false, true, false, true] := by
  decide

/-- C5 (amended): the dispatchers invoke every registered callback iff the new
value differs from the single last-broadcast value, which is then updated; on
[Charging, Charging, Full, Full, Charging] from the initial `Unknown`,
callbacks fire exactly at indices 0, 2 and 4 — never at 1 or 3. -/
theorem C5_edge_triggered :
    (∀ s : Sys,
      (ma_battery_GetChargingStatus s ≠ s.lastChargingStatus →
        ReportChargingStatusChange s =
          ({s with lastChargingStatus := ma_battery_GetChargingStatus s},
           List.replicate s.chargingRegs
             (Effect.chargingEvent (ma_battery_GetChargingStatus s)))) ∧
      (ma_battery_GetChargingStatus s = s.lastChargingStatus →
        ReportChargingStatusChange s = (s, []))) ∧
    (∀ (hs : HealthStatus) (s : Sys),
      (hs ≠ s.lastHealthStatus →
        ReportHealthStatusChange hs s =
          ({s with lastHealthStatus := hs},
           List.replicate s.healthRegs (Effect.healthEvent hs))) ∧
      (hs = s.lastHealthStatus → ReportHealthStatusChange hs s = (s, []))) ∧
    (∀ oldStatus newStatus,
      (StatusChangeStep oldStatus newStatus).2 = true ↔ newStatus ≠ oldStatus) ∧
    StatusChangeTrace ChargingStatus.unknown
        [ChargingStatus.charging, ChargingStatus.charging, ChargingStatus.full,
         ChargingStatus.full, ChargingStatus.charging] =
      [true, false, true, false, true] := by
  refine ⟨fun s => ⟨fun h => ?_, fun h => ?_⟩,
          fun hs s => ⟨fun h => ?_, fun h => ?_⟩,
          fun oldStatus newStatus => ?_, by decide⟩
  · unfold ReportChargingStatusChange
    dsimp only
    rw [if_pos h]
  · unfold ReportChargingStatusChange
    dsimp only
    rw [if_neg (not_not_intro h)]
  · unfold ReportHealthStatusChange
    rw [if_pos h]
  · unfold ReportHealthStatusChange
    rw [if_neg (not_not_intro h)]
  · unfold StatusChangeStep
    split <;> simp_all

/-- C5 witness: a `Full` edge reaching a dispatcher with two registrations
fires both callbacks and updates the last-broadcast value. -/
theorem C5_witness :
    ReportChargingStatusChange FullEdgeSys =
      ({FullEdgeSys with lastChargingStatus := ChargingStatus.full},
       List.replicate 2 (Effect.chargingEvent ChargingStatus.full)) := by
  have h := (C5_edge_triggered.1 FullEdgeSys).1 (by decide)
  exact h.trans (by decide)

/-- C6 (counterexample): from `Nominal`, a cycle whose voltage read fails has
no successor state at all — `LE_FATAL` terminates the process — rather than
aborting only the report with `State` unchanged and the next tick retrying. -/
theorem C6_counterexample :
    VoltageFailInputs.voltageRead = none ∧
    NominalSys.state = BatteryState.nominal ∧
    BatteryTimerExpiryHandler VoltageFailInputs NominalSys = none := by
  decide

/-- C6 (amended): a failed required hardware read makes the sampling cycle
fatal (`LE_FATAL`): the tick produces no successor state, instead of merely
skipping the report and retrying next tick.  This holds unconditionally for
the charge-counter, voltage and temperature reads (the counter failure occurs
before any variable update), and for the charge-level read whenever the
post-transition state requires it (any state but `Disconnected`). -/
theorem C6_read_failure_fatal (s : Sys) (inp : TickInputs) :
    (inp.counter = none → BatteryTimerExpiryHandler inp s = none) ∧
    (inp.voltageRead = none → BatteryTimerExpiryHandler inp s = none) ∧
    (inp.tempRead = none → BatteryTimerExpiryHandler inp s = none) ∧
    (∀ c, inp.counter = some c → inp.chargeNowRead = none →
      (HandleEvent Event.timerExpired (TickSample c inp.statusStr s)).1.state ≠
        BatteryState.disconnected →
      BatteryTimerExpiryHandler inp s = none) := by
  refine ⟨fun h => ?_, fun h => ?_, fun h => ?_, fun c hc h hstate => ?_⟩
  · unfold BatteryTimerExpiryHandler
    rw [h]
  · unfold BatteryTimerExpiryHandler
    cases hc : inp.counter with
    | none => rfl
    | some c =>
      unfold RunStateMachine
      dsimp only
      rw [ReportAll_voltage_fatal inp _ h]
      rfl
  · unfold BatteryTimerExpiryHandler
    cases hc : inp.counter with
    | none => rfl
    | some c =>
      unfold RunStateMachine
      dsimp only
      rw [ReportAll_temp_fatal inp _ h]
      rfl
  · unfold BatteryTimerExpiryHandler
    rw [hc]
    unfold RunStateMachine
    dsimp only
    rw [ReportAll_charge_fatal inp _ h hstate]
    rfl

/-- C6 witness: a failed charge-counter read is fatal to the tick. -/
theorem C6_witness :
    BatteryTimerExpiryHandler CounterFailInputs NominalSys = none :=
  (C6_read_failure_fatal NominalSys CounterFailInputs).1 rfl

/-- C7: along every reachable step of the service, (i) a `batteryInfo/percent`
write happens only when the machine is in `Nominal`, (ii) after any transition
into `Disconnected` the persisted key is absent, and (iii) after any change of
the stored `Capacity` the persisted key is absent. -/
theorem C7_persistence (s : Sys) (a : Act) (s' : Sys) (eff : List Effect)
    (hr : Reachable s) (hstep : BatteryStep a s = some (s', eff)) :
    (∀ q, Effect.savePercent q ∈ eff → s'.state = BatteryState.nominal) ∧
    (s.state ≠ BatteryState.disconnected →
      s'.state = BatteryState.disconnected → s'.persistedPercent = none) ∧
    (s'.capacity ≠ s.capacity → s'.persistedPercent = none) :=
  ⟨fun q hq => BatteryStep_save a s s' eff hstep q hq,
   fun _ hdisc =>
     Reachable_inv s' (Reachable.step a s s' eff hr hstep)
       (Or.inr (Or.inr hdisc)),
   fun hcap => BatteryStep_capacity_change a s s' eff hstep hcap⟩

/-- C7 witness: from the freshly configured `DetectingPresence` state, the
tick that infers disconnection leaves no persisted percentage. -/
theorem C7_witness :
    BatteryStep (Act.timerTick OkInputs) InitSys = some (TickedSys, TickedEff) ∧
    TickedSys.persistedPercent = none := by
  refine ⟨by decide, ?_⟩
  exact (C7_persistence InitSys (Act.timerTick OkInputs) TickedSys TickedEff
      (Reachable.init (some 2000) (some 0) none InitSys (by decide))
      (by decide)).2.1 (by decide) (by decide)

/-- C8 (counterexample): monotonicity in `mAh` fails across the 32-bit wrap of
`1000*mAh`: with capacity 1, 4294967 mAh yields 100 but 4294968 mAh yields
70. -/
theorem C8_counterexample :
    (4294967 : Nat) ≤ 4294968 ∧
    ComputePercentage 1 4294967 = some 100 ∧
    ComputePercentage 1 4294968 = some 70 ∧ ¬((100 : Nat) ≤ 70) := by
  decide

/-- C8 (amended): for a fixed positive `int32_t` capacity the result is always
defined and in [0, 100], and `ComputePercentage` is monotone non-decreasing in
`mAh` on the overflow-free range `1000*mAh < 2^32` (which covers every
`uint16_t` level the callers pass). -/
theorem C8_monotone_range (capacity : Int) (h0 : 0 < capacity)
    (h1 : capacity < (2 : Int) ^ 31) :
    (∀ mAh, ∃ p, ComputePercentage capacity mAh = some p ∧ p ≤ 100) ∧
    (∀ m1 m2, m1 ≤ m2 → 1000 * m2 < 2 ^ 32 →
      ∀ p1 p2, ComputePercentage capacity m1 = some p1 →
        ComputePercentage capacity m2 = some p2 → p1 ≤ p2) := by
  constructor
  · intro mAh
    rw [ComputePercentage_eq capacity mAh h0 h1]
    exact ⟨_, rfl, Nat.min_le_right _ _⟩
  · intro m1 m2 hm hov p1 p2 hp1 hp2
    have hov1 : 1000 * m1 < 2 ^ 32 :=
      lt_of_le_of_lt (by omega : 1000 * m1 ≤ 1000 * m2) hov
    rw [ComputePercentage_eq_of_small capacity m1 h0 h1 hov1] at hp1
    rw [ComputePercentage_eq_of_small capacity m2 h0 h1 hov] at hp2
    obtain rfl := Option.some.inj hp1
    obtain rfl := Option.some.inj hp2
    have ht : 1000 * m1 / capacity.toNat ≤ 1000 * m2 / capacity.toNat :=
      Nat.div_le_div_right (by omega)
    exact min_le_min (Nat.div_le_div_right (by omega)) (le_refl 100)

/-- C8 witness: capacity 2000 at 1000 mAh is defined and within range. -/
theorem C8_witness : ∃ p, ComputePercentage 2000 1000 = some p ∧ p ≤ 100 :=
  (C8_monotone_range 2000 (by decide) (by decide)).1 1000

/-- C9: the claim (and the spec) say a zero capacity is guarded and yields 0%;
the code has no such guard: `SetCapacity` accepts 0 (only negative values are
rejected), after which `ComputePercentage` divides by zero — undefined
behaviour, modelled as `none`, not `some 0`. -/
theorem C9_division_by_zero :
    ComputePercentage 0 1000 = none ∧
    ComputePercentage 0 1000 ≠ some 0 ∧
    SetCapacity 0 OkInputs InitSys = none := by
  decide

/-- C10: `ma_battery_GetPercentRemaining` returns `LE_NOT_FOUND` — without
reading the hardware and without writing the output — whenever the capacity is
unconfigured (`Capacity < 0`) or the state is `Disconnected`, `Stabilizing` or
`DetectingPresence`, even with a configured capacity. -/
theorem C10_getPercent_notFound (s : Sys) (chargeNowRead : Option Int)
    (h : s.capacity < 0 ∨ s.state = BatteryState.disconnected ∨
         s.state = BatteryState.stabilizing ∨
         s.state = BatteryState.detectingPresence) :
    ma_battery_GetPercentRemaining s chargeNowRead =
      some ⟨LeResult.notFound, none, false⟩ := by
  unfold ma_battery_GetPercentRemaining
  by_cases hc : s.capacity < 0
  · rw [if_pos hc]
  · rw [if_neg hc]
    rcases h with h | h | h | h
    · exact absurd h hc
    · rw [if_pos (Or.inl h)]
    · rw [if_pos (Or.inr (Or.inl h))]
    · rw [if_pos (Or.inr (Or.inr h))]

/-- C10 witness: in `Disconnected` with capacity 2000, the call returns
`LE_NOT_FOUND` untouched. -/
theorem C10_witness :
    ma_battery_GetPercentRemaining DisconnectedSys (some 123456) =
      some ⟨LeResult.notFound, none, false⟩ :=
  C10_getPercent_notFound DisconnectedSys (some 123456) (Or.inr (Or.inl rfl))
